import Mathlib

/-!
Verification development for the Notion data-quality repository
(`src/Notion/NotionPage.py`, `src/Notion/NotionAPI.py`).

The Python code is shallowly embedded: JSON-like Python runtime values
become the inductive `PyValue`, Python exceptions become the `PyError`
error type of `Except`, and each Python function of the core pipeline
(property decoding, page wrapping, dataframe assembly, pagination,
identifier formatting and extraction) becomes an executable Lean
definition mirroring the source line by line.
-/

/-- A Python runtime value as they occur in the decoded Notion JSON:
`None`, booleans, numbers, strings, lists, and string-keyed dicts. -/
inductive PyValue where
  | null : PyValue
  | bool (b : Bool) : PyValue
  | num (n : Int) : PyValue
  | str (s : String) : PyValue
  | arr (xs : List PyValue) : PyValue
  | obj (fields : List (String × PyValue)) : PyValue

/-- Python exceptions raised by the embedded code. -/
inductive PyError where
  | keyError : PyError
  | typeError : PyError
  | indexError : PyError
  | attributeError : PyError
deriving DecidableEq

/-- Python truthiness (`bool(v)`): `None`, `False`, `0`, `""`, `[]`, `{}`
are falsy, everything else truthy.  Used by `if not self.value`. -/
def pyTruthy : PyValue → Bool
  | PyValue.null => false
  | PyValue.bool b => b
  | PyValue.num n => n != 0
  | PyValue.str s => !s.isEmpty
  | PyValue.arr xs => !xs.isEmpty
  | PyValue.obj fs => !fs.isEmpty

/-- Python `len(v)`: defined for strings, lists and dicts, a `TypeError`
otherwise (e.g. on numbers and booleans). -/
def pyLen : PyValue → Except PyError Nat
  | PyValue.str s => Except.ok s.length
  | PyValue.arr xs => Except.ok xs.length
  | PyValue.obj fs => Except.ok fs.length
  | _ => Except.error PyError.typeError

/-- Python `v[k]` for a string key `k`: dict lookup, `KeyError` when the
key is missing, `TypeError` when `v` is not a dict. -/
def objGet (v : PyValue) (k : String) : Except PyError PyValue :=
  match v with
  | PyValue.obj fs =>
    match fs.lookup k with
    | some x => Except.ok x
    | none => Except.error PyError.keyError
  | _ => Except.error PyError.typeError

/-- Python `v[0]`: first element of a list (or one-character string of a
string); `IndexError` when empty, `TypeError` when not indexable. -/
def pyIndex0 : PyValue → Except PyError PyValue
  | PyValue.arr (x :: _) => Except.ok x
  | PyValue.arr [] => Except.error PyError.indexError
  | PyValue.str s =>
    match s.data with
    | c :: _ => Except.ok (PyValue.str (String.mk [c]))
    | [] => Except.error PyError.indexError
  | _ => Except.error PyError.typeError

/-- Python iteration `for x in v`: lists yield their elements, strings
their one-character strings, dicts their keys; `TypeError` otherwise. -/
def pyIter : PyValue → Except PyError (List PyValue)
  | PyValue.arr xs => Except.ok xs
  | PyValue.str s => Except.ok (s.data.map fun c => PyValue.str (String.mk [c]))
  | PyValue.obj fs => Except.ok (fs.map fun p => PyValue.str p.1)
  | _ => Except.error PyError.typeError

/-- `NotionRichTextObject`: wrapper storing the four attributes read by
its `__init__` (`plain_text`, `href`, `annotations`, `type`). -/
structure NotionRichTextObject where
  plain_text : PyValue
  href : PyValue
  annots : PyValue
  rtype : PyValue

/-- `NotionRichTextObject.__init__`: reads the four keys in source order,
raising `KeyError` when one is missing. -/
def mkNotionRichTextObject (v : PyValue) : Except PyError NotionRichTextObject :=
  match objGet v "plain_text" with
  | Except.error e => Except.error e
  | Except.ok pt =>
    match objGet v "href" with
    | Except.error e => Except.error e
    | Except.ok h =>
      match objGet v "annotations" with
      | Except.error e => Except.error e
      | Except.ok an =>
        match objGet v "type" with
        | Except.error e => Except.error e
        | Except.ok ty => Except.ok ⟨pt, h, an, ty⟩

/-- `NotionRichTextObject.get_plain_text`. -/
def NotionRichTextObject.get_plain_text (r : NotionRichTextObject) : PyValue :=
  r.plain_text

/-- `NotionPageProperty`: `id`, `type` and `value` attributes set by
`__init__` (`value = page_property[self.type]`). -/
structure NotionPageProperty where
  pid : PyValue
  ptype : String
  value : PyValue

/-- `NotionPageProperty.__init__` from the raw payload dict: reads
`id`, `type`, then the key equal to the type tag.  A non-string `type`
cannot match any string key of the dict, hence `KeyError`. -/
def mkNotionPageProperty (v : PyValue) : Except PyError NotionPageProperty :=
  match objGet v "id" with
  | Except.error e => Except.error e
  | Except.ok pid =>
    match objGet v "type" with
    | Except.error e => Except.error e
    | Except.ok ty =>
      match ty with
      | PyValue.str s =>
        match objGet v s with
        | Except.error e => Except.error e
        | Except.ok pv => Except.ok ⟨pid, s, pv⟩
      | _ => Except.error PyError.keyError

namespace NotionPageProperty

/-- `_get_files_value`: `self.value[0]["name"]`. -/
def get_files_value (v : PyValue) : Except PyError PyValue :=
  match pyIndex0 v with
  | Except.error e => Except.error e
  | Except.ok x => objGet x "name"

/-- `_get_select_value`: `self.value["name"]`. -/
def get_select_value (v : PyValue) : Except PyError PyValue :=
  objGet v "name"

/-- `_get_rollup_value`: reads `self.value["type"]` and returns
`self.value[property_type]` (one level of re-dispatch). -/
def get_rollup_value (v : PyValue) : Except PyError PyValue :=
  match objGet v "type" with
  | Except.error e => Except.error e
  | Except.ok t =>
    match t with
    | PyValue.str s => objGet v s
    | PyValue.arr _ => Except.error PyError.typeError
    | PyValue.obj _ => Except.error PyError.typeError
    | _ => Except.error PyError.keyError

/-- `_get_number_value`: returns `self.value` as-is. -/
def get_number_value (v : PyValue) : Except PyError PyValue :=
  Except.ok v

/-- `_get_checkbox_value`: returns `self.value` as-is. -/
def get_checkbox_value (v : PyValue) : Except PyError PyValue :=
  Except.ok v

/-- `_get_string_value`: returns `self.value` as-is. -/
def get_string_value (v : PyValue) : Except PyError PyValue :=
  Except.ok v

/-- `_get_multi_select_value`: `[selection["name"] for selection in value]`. -/
def get_multi_select_value (v : PyValue) : Except PyError PyValue :=
  match pyIter v with
  | Except.error e => Except.error e
  | Except.ok xs =>
    match xs.mapM (fun x => objGet x "name") with
    | Except.error e => Except.error e
    | Except.ok ns => Except.ok (PyValue.arr ns)

/-- `_get_relation_value`: `[relation["id"] for relation in value]`. -/
def get_relation_value (v : PyValue) : Except PyError PyValue :=
  match pyIter v with
  | Except.error e => Except.error e
  | Except.ok xs =>
    match xs.mapM (fun x => objGet x "id") with
    | Except.error e => Except.error e
    | Except.ok ns => Except.ok (PyValue.arr ns)

/-- `_get_rich_text_value`: `NotionRichTextObject(value[0]).get_plain_text()`. -/
def get_rich_text_value (v : PyValue) : Except PyError PyValue :=
  match pyIndex0 v with
  | Except.error e => Except.error e
  | Except.ok x =>
    match mkNotionRichTextObject x with
    | Except.error e => Except.error e
    | Except.ok r => Except.ok r.get_plain_text

/-- `_get_title_value`: same extraction as rich text. -/
def get_title_value (v : PyValue) : Except PyError PyValue :=
  match pyIndex0 v with
  | Except.error e => Except.error e
  | Except.ok x =>
    match mkNotionRichTextObject x with
    | Except.error e => Except.error e
    | Except.ok r => Except.ok r.get_plain_text

/-- The `type_to_function` dispatch of `get_value`: indexing the dict with
an unknown tag raises `KeyError`. -/
def dispatch (p : NotionPageProperty) : Except PyError PyValue :=
  if p.ptype = "title" then get_title_value p.value
  else if p.ptype = "rich_text" then get_rich_text_value p.value
  else if p.ptype = "relation" then get_relation_value p.value
  else if p.ptype = "multi_select" then get_multi_select_value p.value
  else if p.ptype = "phone_number" then get_string_value p.value
  else if p.ptype = "rollup" then get_rollup_value p.value
  else if p.ptype = "url" then get_string_value p.value
  else if p.ptype = "date" then get_string_value p.value
  else if p.ptype = "select" then get_select_value p.value
  else if p.ptype = "email" then get_string_value p.value
  else if p.ptype = "files" then get_files_value p.value
  else if p.ptype = "number" then get_number_value p.value
  else Except.error PyError.keyError

/-- `NotionPageProperty.get_value`: checkbox short-circuits first, then
`if not self.value: return None`, then the `len(self.value) == 0` check
guarded by `self.type not in ["number"]`, then the dispatch table. -/
def get_value (p : NotionPageProperty) : Except PyError PyValue :=
  if p.ptype = "checkbox" then get_checkbox_value p.value
  else if pyTruthy p.value = false then Except.ok PyValue.null
  else if p.ptype ≠ "number" then
    match pyLen p.value with
    | Except.error e => Except.error e
    | Except.ok n => if n = 0 then Except.ok PyValue.null else dispatch p
  else dispatch p

end NotionPageProperty

/-- The closed set of type tags recognized by `get_value` (the twelve
dispatch-table keys plus `checkbox`). -/
def recognizedTags : List String :=
  ["title", "rich_text", "relation", "multi_select", "phone_number",
   "rollup", "url", "date", "select", "email", "files", "number", "checkbox"]

/-- `NotionPage`: the ten attributes read by `__init__` from the raw
page JSON. -/
structure NotionPage where
  object : PyValue
  nid : PyValue
  created_time : PyValue
  last_edited_time : PyValue
  cover : PyValue
  icon : PyValue
  parent : PyValue
  archived : PyValue
  properties : PyValue
  url : PyValue

/-- `NotionPage.__init__`: reads the ten required keys in source order,
raising `KeyError` when one is missing. -/
def mkNotionPage (v : PyValue) : Except PyError NotionPage :=
  match objGet v "object" with
  | Except.error e => Except.error e
  | Except.ok o =>
    match objGet v "id" with
    | Except.error e => Except.error e
    | Except.ok i =>
      match objGet v "created_time" with
      | Except.error e => Except.error e
      | Except.ok ct =>
        match objGet v "last_edited_time" with
        | Except.error e => Except.error e
        | Except.ok lt =>
          match objGet v "cover" with
          | Except.error e => Except.error e
          | Except.ok cv =>
            match objGet v "icon" with
            | Except.error e => Except.error e
            | Except.ok ic =>
              match objGet v "parent" with
              | Except.error e => Except.error e
              | Except.ok pa =>
                match objGet v "archived" with
                | Except.error e => Except.error e
                | Except.ok ar =>
                  match objGet v "properties" with
                  | Except.error e => Except.error e
                  | Except.ok pr =>
                    match objGet v "url" with
                    | Except.error e => Except.error e
                    | Except.ok u =>
                      Except.ok ⟨o, i, ct, lt, cv, ic, pa, ar, pr, u⟩

namespace NotionPage

/-- `NotionPage.get_properties_keys`: `self.properties.keys()`; calling
`.keys()` on a non-dict raises `AttributeError`. -/
def get_properties_keys (p : NotionPage) : Except PyError (List String) :=
  match p.properties with
  | PyValue.obj fs => Except.ok (fs.map Prod.fst)
  | _ => Except.error PyError.attributeError

/-- Total key view of a page's properties dict, used to state theorems
(`[]` when `properties` is not a dict, in which case
`get_properties_keys` errors instead). -/
def keysD (p : NotionPage) : List String :=
  match p.properties with
  | PyValue.obj fs => fs.map Prod.fst
  | _ => []

/-- `NotionPage.get_property`: `NotionPageProperty(self.properties[key])`. -/
def get_property (p : NotionPage) (key : String) : Except PyError NotionPageProperty :=
  match objGet p.properties key with
  | Except.error e => Except.error e
  | Except.ok raw => mkNotionPageProperty raw

/-- `NotionPage.get_property_value`: `self.get_property(key).get_value()`. -/
def get_property_value (p : NotionPage) (key : String) : Except PyError PyValue :=
  match p.get_property key with
  | Except.error e => Except.error e
  | Except.ok prop => prop.get_value

end NotionPage

/-!  The pandas dataframe built by `NotionAPI.pages_to_dataframe` is
modelled by its observable state: the column labels (in order), the row
labels (in insertion order), and the assigned cells.  `df.at[x, key] = v`
appends a missing column label, appends a missing row label, and records
the cell assignment (later assignments shadow earlier ones).  -/

/-- Tabular state of the pandas dataframe: ordered column labels, ordered
row labels, and the cell-assignment log (most recent first). -/
structure DataFrame where
  columns : List String
  rowIndex : List Nat
  cells : List ((Nat × String) × PyValue)

/-- `df.at[x, key] = v`: label-based scalar setter with enlargement. -/
def dfSet (df : DataFrame) (x : Nat) (key : String) (v : PyValue) : DataFrame :=
  { columns := if key ∈ df.columns then df.columns else df.columns ++ [key]
    rowIndex := if x ∈ df.rowIndex then df.rowIndex else df.rowIndex ++ [x]
    cells := ((x, key), v) :: df.cells }

/-- Reading a cell back: the most recent assignment to `(x, key)`, or
absent (`none`, rendered NaN by pandas) when never assigned. -/
def dfGet (df : DataFrame) (x : Nat) (key : String) : Option PyValue :=
  df.cells.lookup (x, key)

/-- The inner loop of `pages_to_dataframe` for one page at row `x`:
`for key in property_keys: df.at[x, key] = page.get_property_value(key)`. -/
def fillRow (x : Nat) (page : NotionPage) : List String → DataFrame → Except PyError DataFrame
  | [], df => Except.ok df
  | k :: ks, df =>
    match page.get_property_value k with
    | Except.error e => Except.error e
    | Except.ok v => fillRow x page ks (dfSet df x k v)

/-- The outer loop of `pages_to_dataframe`:
`for x, page in enumerate(notion_pages)`. -/
def fillRows (x : Nat) : List NotionPage → DataFrame → Except PyError DataFrame
  | [], df => Except.ok df
  | p :: ps, df =>
    match p.get_properties_keys with
    | Except.error e => Except.error e
    | Except.ok ks =>
      match fillRow x p ks df with
      | Except.error e => Except.error e
      | Except.ok df' => fillRows (x + 1) ps df'

namespace NotionAPI

/-- `NotionAPI.pages_to_dataframe`: `notion_pages[0]` raises `IndexError`
on an empty list; the dataframe starts with the first page's property
keys as columns and is then filled row by row. -/
def pages_to_dataframe (notion_pages : List NotionPage) : Except PyError DataFrame :=
  match notion_pages with
  | [] => Except.error PyError.indexError
  | p0 :: _ =>
    match p0.get_properties_keys with
    | Except.error e => Except.error e
    | Except.ok cols => fillRows 0 notion_pages ⟨cols, [], []⟩

end NotionAPI

/-- Ordered union used to describe the column evolution: append each key
of `ks` not already present. -/
def colUnion (acc : List String) (ks : List String) : List String :=
  ks.foldl (fun a k => if k ∈ a then a else a ++ [k]) acc

/-!  Pagination (`NotionAPI.query_db`, lines 94–126).  The remote service
is modelled as the finite sequence of responses it returns, one per
request issued.  Each response carries the decoded `results` list, the
`has_more` flag, and the `next_cursor` token (read only when `has_more`
is true).  -/

/-- One decoded response of the query endpoint. -/
structure QueryResponse where
  results : List PyValue
  has_more : Bool
  next_cursor : String

/-- A request issued by the loop: `none` is the initial request carrying
the caller's query payload, `some c` a follow-up carrying start cursor `c`. -/
def PageRequest := Option String

/-- The `while json_content["has_more"]` loop, after the response `prev`
has been received: while `prev.has_more`, consume the service's next
response (`none` when the service has none left, i.e. the loop would
block) and record the follow-up request carrying `prev.next_cursor`.
Returns the accumulated results of the later pages together with the
follow-up requests issued. -/
def fetchRest : QueryResponse → List QueryResponse → Option (List PyValue × List PageRequest)
  | prev, [] => if prev.has_more then none else some ([], [])
  | prev, r :: rest =>
    if prev.has_more then
      match fetchRest r rest with
      | none => none
      | some (recs, reqs) =>
        some (r.results ++ recs, some prev.next_cursor :: reqs)
    else some ([], [])

/-- The full paginated fetch of `query_db` (lines 94–114): the initial
request, then the cursor-driven loop.  Returns the accumulated raw
result records in page order together with the list of requests issued. -/
def fetchAll : List QueryResponse → Option (List PyValue × List PageRequest)
  | [] => none
  | r :: rest =>
    match fetchRest r rest with
    | none => none
    | some (recs, reqs) => some (r.results ++ recs, Option.none :: reqs)

/-- The value returned by `query_db`, depending on `return_type`
(`None` is Python's implicit return for an unrecognized `return_type`). -/
inductive QueryResult where
  | dataframe (df : DataFrame) : QueryResult
  | json (raws : List PyValue) : QueryResult
  | pages (ps : List NotionPage) : QueryResult
  | pyNone : QueryResult

/-- `NotionAPI.query_db` after the fetch loop: every raw record is
wrapped into a `NotionPage`, then the `return_type` dispatch selects the
result (falling through to Python's implicit `None`).  The outer `Option`
is the service model (`none` when the service stops answering), the inner
`Except` the Python-level outcome. -/
def NotionAPI.query_db (responses : List QueryResponse) (return_type : String) :
    Option (Except PyError QueryResult) :=
  match fetchAll responses with
  | none => none
  | some (json_results, _) =>
    some (
      match json_results.mapM mkNotionPage with
      | Except.error e => Except.error e
      | Except.ok notion_pages =>
        if return_type = "json" then Except.ok (QueryResult.json json_results)
        else if return_type = "dataframe" then
          match NotionAPI.pages_to_dataframe notion_pages with
          | Except.error e => Except.error e
          | Except.ok df => Except.ok (QueryResult.dataframe df)
        else if return_type = "NotionPage" then Except.ok (QueryResult.pages notion_pages)
        else Except.ok QueryResult.pyNone)

/-!  Identifier canonicalization and extraction
(`NotionAPI._format_page_id`, `NotionAPI._extract_dbid_from_http_url`).
Python strings are embedded as `List Char`; Python slicing and
`str.find` are embedded with their exact semantics (negative indices,
`-1` for a missing substring).  -/

/-- Normalization of a Python slice bound: negative indices count from
the end (clamped at 0), positive ones are clamped at the length. -/
def pyBound (n : Nat) (i : Int) : Nat :=
  if i < 0 then ((n : Int) + i).toNat else min i.toNat n

/-- Python `s[a:b]`. -/
def pySlice (s : List Char) (a b : Int) : List Char :=
  (s.take (pyBound s.length b)).drop (pyBound s.length a)

/-- `NotionAPI._format_page_id`: inserts dashes after the 8th, 12th, 16th
and 20th raw character (the 8-4-4-4-12 structure). -/
def NotionAPI.format_page_id (raw_id : List Char) : List Char :=
  pySlice raw_id 0 8 ++ ['-'] ++ pySlice raw_id 8 12 ++ ['-'] ++
    pySlice raw_id 12 16 ++ ['-'] ++ pySlice raw_id 16 20 ++ ['-'] ++
    raw_id.drop 20

/-- Helper for Python `s.find(sub)`: index (counted from `i`) of the
first position of `s` at which `sub` begins. -/
def strFindAux (sub : List Char) : List Char → Nat → Option Nat
  | [], i => if sub = [] then some i else none
  | c :: rest, i =>
    if sub.isPrefixOf (c :: rest) then some i else strFindAux sub rest (i + 1)

/-- Python `s.find(sub)`: first index of `sub` in `s`, `-1` if absent. -/
def strFind (s sub : List Char) : Int :=
  match strFindAux sub s 0 with
  | some n => (n : Int)
  | none => -1

/-- The `"?v="` marker located by `_extract_dbid_from_http_url`. -/
def qvMarker : List Char := ['?', 'v', '=']

/-- `NotionAPI._extract_dbid_from_http_url`: finds `"?v="` and slices the
32 characters before it. -/
def NotionAPI.extract_dbid_from_http_url (http_url : List Char) : List Char :=
  pySlice http_url (strFind http_url qvMarker - 32) (strFind http_url qvMarker)

/-- Lowercase hexadecimal digit, as used in Notion identifiers. -/
def isHexChar (c : Char) : Bool :=
  ('0' ≤ c && c ≤ '9') || ('a' ≤ c && c ≤ 'f')

/-- A canonical dashed identifier: 36 characters, dashes exactly at
0-indexed positions 8, 13, 18, 23, hexadecimal digits elsewhere. -/
def isCanonicalId (t : List Char) : Bool :=
  t.length = 36 &&
    (List.range 36).all fun i =>
      if i = 8 || i = 13 || i = 18 || i = 23 then t.getD i ' ' = '-'
      else isHexChar (t.getD i ' ')

/-- A value that Python renders as `None` or an empty sequence: `null`,
the empty string, or the empty list. -/
def nullOrEmptySeq : PyValue → Bool
  | PyValue.null => true
  | PyValue.str s => s.isEmpty
  | PyValue.arr xs => xs.isEmpty
  | _ => false

/-- Whether a decoding outcome is a raised exception. -/
def isErr (r : Except PyError PyValue) : Bool :=
  match r with
  | Except.error _ => true
  | Except.ok _ => false

/-- Mock service of the spec's pagination property: three pages with
100, 100 and 37 results, `has_more` true, true, false. -/
def pages3 : List QueryResponse :=
  [⟨List.replicate 100 PyValue.null, true, "c1"⟩,
   ⟨List.replicate 100 PyValue.null, true, "c2"⟩,
   ⟨List.replicate 37 PyValue.null, false, "c3"⟩]

/-- The row labels produced for pages starting at row position `x`: a
page contributes its row label exactly when it has at least one property
(its first cell assignment creates the row). -/
def rowsOf (x : Nat) : List NotionPage → List Nat
  | [] => []
  | p :: ps =>
    (if (NotionPage.keysD p).isEmpty then [] else [x]) ++ rowsOf (x + 1) ps

/-- A well-formed checkbox property payload with literal value `b`. -/
def checkboxPayload (b : Bool) : PyValue :=
  PyValue.obj [("id", PyValue.str "x"), ("type", PyValue.str "checkbox"),
    ("checkbox", PyValue.bool b)]

/-- Record A of the table-assembly scenario: only a `Name` property. -/
def cexPageA : NotionPage :=
  ⟨PyValue.null, PyValue.null, PyValue.null, PyValue.null, PyValue.null,
   PyValue.null, PyValue.null, PyValue.null,
   PyValue.obj [("Name", checkboxPayload true)], PyValue.null⟩

/-- Record B of the table-assembly scenario: `Name` and `Status`. -/
def cexPageB : NotionPage :=
  ⟨PyValue.null, PyValue.null, PyValue.null, PyValue.null, PyValue.null,
   PyValue.null, PyValue.null, PyValue.null,
   PyValue.obj [("Name", checkboxPayload true), ("Status", checkboxPayload false)],
   PyValue.null⟩

/-- The dataframe produced for `[cexPageA, cexPageB]`. -/
def cexDF : DataFrame :=
  ⟨["Name", "Status"], [0, 1],
   [((1, "Status"), PyValue.bool false), ((1, "Name"), PyValue.bool true),
    ((0, "Name"), PyValue.bool true)]⟩

/-!  ## Theorems  -/

/-- C1: the spec requires a number payload with value `0` to decode to
`0`, never to absent.  The code's `if not self.value` truthiness check
catches `0` first, so the payload decodes to `None` (absent) instead —
while a nonzero number payload does decode to its literal value. -/
theorem number_zero_decodes_to_absent :
    NotionPageProperty.get_value ⟨PyValue.null, "number", PyValue.num 0⟩ =
      Except.ok PyValue.null ∧
    NotionPageProperty.get_value ⟨PyValue.null, "number", PyValue.num 5⟩ =
      Except.ok (PyValue.num 5) :=
  ⟨rfl, rfl⟩

/-- C8: `pages_to_dataframe` on the empty record list surfaces an error
to the caller (`notion_pages[0]` raises `IndexError`) and returns no
table. -/
theorem pages_to_dataframe_empty_input_fails :
    NotionAPI.pages_to_dataframe [] = Except.error PyError.indexError :=
  rfl

/-- C9: for any property payload whose type tag is not `checkbox` and
whose value is null or an empty sequence, `get_value` returns absent
(`None`) before consulting the dispatch table — even for an unrecognized
type tag. -/
theorem get_value_empty_is_absent (p : NotionPageProperty)
    (hty : p.ptype ≠ "checkbox") (hv : nullOrEmptySeq p.value = true) :
    p.get_value = Except.ok PyValue.null := by
  have htr : pyTruthy p.value = false := by
    rcases p with ⟨pid, ty, v⟩
    cases v <;> simp_all [nullOrEmptySeq, pyTruthy]
  rw [NotionPageProperty.get_value, if_neg hty, htr]
  simp

/-- Witness for C9 at a concrete unrecognized tag with an empty list value. -/
theorem get_value_empty_is_absent_witness :
    NotionPageProperty.get_value ⟨PyValue.null, "mystery", PyValue.arr []⟩ =
      Except.ok PyValue.null :=
  get_value_empty_is_absent ⟨PyValue.null, "mystery", PyValue.arr []⟩ (by decide) rfl

/-- C7 counterexample: an unrecognized type tag (`"foo"`, not among the
recognized tags) with an empty list value decodes to absent — a returned
value, not a decoding error — refuting the unrestricted claim. -/
theorem unknown_tag_empty_value_no_error :
    ("foo" ∉ recognizedTags) ∧
    NotionPageProperty.get_value ⟨PyValue.null, "foo", PyValue.arr []⟩ =
      Except.ok PyValue.null :=
  ⟨by decide, rfl⟩

/-- C7 (amended): for every property payload whose type tag is not one of
the recognized tags and whose value is truthy (non-null, non-empty,
nonzero), decoding fails with an exception rather than returning a value. -/
theorem unknown_tag_truthy_value_errors (p : NotionPageProperty)
    (hty : p.ptype ∉ recognizedTags) (hv : pyTruthy p.value = true) :
    isErr p.get_value = true := by
  rcases p with ⟨pid, ty, v⟩
  dsimp only at hv hty ⊢
  simp only [recognizedTags, List.mem_cons, List.not_mem_nil, or_false,
    not_or] at hty
  obtain ⟨h1, h2, h3, h4, h5, h6, h7, h8, h9, h10, h11, h12, h13⟩ := hty
  rw [NotionPageProperty.get_value]
  simp only [h13, if_false, hv]
  cases v with
  | null => simp [pyTruthy] at hv
  | bool b => simp [pyLen, h12, isErr]
  | num n => simp [pyLen, h12, isErr]
  | str s =>
    cases s with
    | mk data =>
      cases data with
      | nil => exact absurd hv (by decide)
      | cons c cs =>
        simp [pyLen, h12, NotionPageProperty.dispatch,
          h1, h2, h3, h4, h5, h6, h7, h8, h9, h10, h11, isErr]
  | arr xs =>
    cases xs with
    | nil => exact absurd hv (by decide)
    | cons a as =>
      simp [pyLen, h12, NotionPageProperty.dispatch,
        h1, h2, h3, h4, h5, h6, h7, h8, h9, h10, h11, isErr]
  | obj fs =>
    cases fs with
    | nil => exact absurd hv (by decide)
    | cons f fs' =>
      simp [pyLen, h12, NotionPageProperty.dispatch,
        h1, h2, h3, h4, h5, h6, h7, h8, h9, h10, h11, isErr]

/-- Witness for the amended C7 at a concrete unrecognized tag with a
non-empty list value. -/
theorem unknown_tag_truthy_value_errors_witness :
    isErr (NotionPageProperty.get_value
      ⟨PyValue.null, "foo", PyValue.arr [PyValue.null]⟩) = true :=
  unknown_tag_truthy_value_errors ⟨PyValue.null, "foo", PyValue.arr [PyValue.null]⟩
    (by decide) rfl

/-- C10: for any `return_type` other than `"dataframe"`, `"json"` and
`"NotionPage"`, `query_db` still performs the full paginated fetch and
wraps every raw record into a `NotionPage` (service exhaustion and
wrapping exceptions still surface), and then falls through every branch
of the dispatch, returning Python's implicit `None` without raising. -/
theorem query_db_unknown_return_type (responses : List QueryResponse)
    (return_type : String) (h1 : return_type ≠ "dataframe")
    (h2 : return_type ≠ "json") (h3 : return_type ≠ "NotionPage") :
    NotionAPI.query_db responses return_type =
      match fetchAll responses with
      | none => none
      | some (json_results, _) =>
        some (
          match json_results.mapM mkNotionPage with
          | Except.error e => Except.error e
          | Except.ok _ => Except.ok QueryResult.pyNone) := by
  cases hf : fetchAll responses with
  | none => simp [NotionAPI.query_db, hf]
  | some pr =>
    rcases pr with ⟨json_results, reqs⟩
    simp only [NotionAPI.query_db, hf]
    cases json_results.mapM mkNotionPage with
    | error e => rfl
    | ok notion_pages => simp [h1, h2, h3]

/-- Witness for C10: a one-page service and `return_type = "xml"` yield
Python `None` with no exception. -/
theorem query_db_unknown_return_type_witness :
    NotionAPI.query_db [⟨[], false, "c"⟩] "xml" =
      some (Except.ok QueryResult.pyNone) :=
  (query_db_unknown_return_type [⟨[], false, "c"⟩] "xml"
    (by decide) (by decide) (by decide)).trans rfl

/-- Behaviour of the cursor loop after response `prev`: when every
response but the last reports `has_more` and the last does not, the loop
consumes exactly the remaining responses, accumulating their results in
page order and issuing one follow-up request per page, each carrying the
previous response's cursor. -/
theorem fetchRest_spec (rs : List QueryResponse) : ∀ prev : QueryResponse,
    (∀ r ∈ (prev :: rs).dropLast, r.has_more = true) →
    ((prev :: rs).getLast (List.cons_ne_nil _ _)).has_more = false →
    fetchRest prev rs = some ((rs.map QueryResponse.results).flatten,
      (prev :: rs).dropLast.map (fun r => some r.next_cursor)) := by
  induction rs with
  | nil =>
    intro prev hmore hlast
    rw [List.getLast_singleton'] at hlast
    simp [fetchRest, hlast]
  | cons r rest ih =>
    intro prev hmore hlast
    have hprev : prev.has_more = true := by
      apply hmore
      rw [List.dropLast_cons₂]
      exact List.mem_cons_self _ _
    have hrest : ∀ x ∈ (r :: rest).dropLast, x.has_more = true := by
      intro x hx
      apply hmore
      rw [List.dropLast_cons₂]
      exact List.mem_cons_of_mem _ hx
    have hlast' : ((r :: rest).getLast (List.cons_ne_nil _ _)).has_more = false := by
      rw [List.getLast_cons_cons] at hlast
      exact hlast
    have hr := ih r hrest hlast'
    rw [fetchRest, hprev]
    simp [hr, List.dropLast_cons₂]

/-- C3: for every terminating sequence of service responses (each page
but the last reporting `has_more`, the last not), the fetch loop of
`query_db` issues the initial request plus one follow-up per further
page — each follow-up carrying the prior response's `next_cursor` — and
returns the concatenation of all pages' result lists in page order. -/
theorem fetchAll_paginates (rs : List QueryResponse) (hne : rs ≠ [])
    (hmore : ∀ r ∈ rs.dropLast, r.has_more = true)
    (hlast : (rs.getLast hne).has_more = false) :
    fetchAll rs = some ((rs.map QueryResponse.results).flatten,
      Option.none :: rs.dropLast.map (fun r => some r.next_cursor)) := by
  cases rs with
  | nil => exact absurd rfl hne
  | cons r rest =>
    have h := fetchRest_spec rest r hmore hlast
    rw [fetchAll, h]
    simp

/-- Witness for C3: the spec's mock service with pages of 100, 100 and
37 results yields all 237 accumulated records via exactly 3 requests,
the 2nd and 3rd carrying the prior response's cursor. -/
theorem fetchAll_paginates_witness :
    fetchAll pages3 = some ((pages3.map QueryResponse.results).flatten,
      [Option.none, some "c1", some "c2"]) ∧
    ((pages3.map QueryResponse.results).flatten).length = 237 ∧
    [Option.none, some "c1", some "c2"].length = 3 := by
  refine ⟨?_, ?_, rfl⟩
  · have h := fetchAll_paginates pages3 (by simp [pages3]) (by decide) (by rfl)
    exact h.trans (by rfl)
  · simp only [pages3, List.map_cons, List.map_nil, List.flatten_cons,
      List.flatten_nil, List.length_append, List.length_replicate, List.length_nil]

/-- Taking `min n (length)` elements is the same as taking `n`. -/
theorem take_min_length {α} (s : List α) (n : Nat) :
    s.take (min n s.length) = s.take n := by
  rw [← List.take_take, List.take_length]

/-- Dropping `min a n` elements equals dropping `a` when the list is no
longer than `n`. -/
theorem drop_min_of_length_le {α} (l : List α) (a n : Nat) (h : l.length ≤ n) :
    l.drop (min a n) = l.drop a := by
  rcases le_total a n with h' | h'
  · rw [min_eq_left h']
  · rw [min_eq_right h', List.drop_eq_nil_of_le h,
      List.drop_eq_nil_of_le (le_trans h h')]

/-- A Python slice with nonnegative bounds is take-then-drop. -/
theorem pySlice_eq_take_drop (s : List Char) (a b : Nat) :
    pySlice s (a : Int) (b : Int) = (s.take b).drop a := by
  have hb : pyBound s.length (b : Int) = min b s.length := by
    simp [pyBound]
  have ha : pyBound s.length (a : Int) = min a s.length := by
    simp [pyBound]
  rw [pySlice, hb, ha, take_min_length]
  exact drop_min_of_length_le _ a s.length
    (le_trans (le_of_eq (List.length_take _ _)) (Nat.min_le_right _ _))

/-- `_format_page_id` written with plain take/drop segments. -/
theorem format_page_id_eq (s : List Char) :
    NotionAPI.format_page_id s =
      s.take 8 ++ '-' :: ((s.take 12).drop 8 ++ '-' :: ((s.take 16).drop 12 ++
        '-' :: ((s.take 20).drop 16 ++ '-' :: s.drop 20))) := by
  rw [NotionAPI.format_page_id,
    show (0 : Int) = ((0 : Nat) : Int) from rfl,
    show (8 : Int) = ((8 : Nat) : Int) from rfl,
    show (12 : Int) = ((12 : Nat) : Int) from rfl,
    show (16 : Int) = ((16 : Nat) : Int) from rfl,
    show (20 : Int) = ((20 : Nat) : Int) from rfl,
    pySlice_eq_take_drop, pySlice_eq_take_drop, pySlice_eq_take_drop,
    pySlice_eq_take_drop]
  simp

/-- On inputs of at least 20 characters, `_format_page_id` adds exactly
the four dash characters. -/
theorem format_page_id_length (s : List Char) (h : 20 ≤ s.length) :
    (NotionAPI.format_page_id s).length = s.length + 4 := by
  rw [format_page_id_eq]
  simp [List.length_take, List.length_drop]
  omega

/-- The element right after a prefix of known length. -/
theorem getD_append_length {α} (l₁ l₂ : List α) (x d : α) (n : Nat)
    (h : l₁.length = n) :
    (l₁ ++ x :: l₂).getD n d = x := by
  rw [List.getD_append_right _ _ _ _ (le_of_eq h)]
  simp [h]

/-- C5: on a 32-character dash-free raw identifier, `_format_page_id`
produces a 36-character string with dashes at 0-indexed positions 8, 13,
18 and 23, and removing the dashes recovers the original 32 characters
in order. -/
theorem format_page_id_inserts_dashes (s : List Char) (hlen : s.length = 32)
    (hnd : '-' ∉ s) :
    (NotionAPI.format_page_id s).length = 36 ∧
    (NotionAPI.format_page_id s).getD 8 ' ' = '-' ∧
    (NotionAPI.format_page_id s).getD 13 ' ' = '-' ∧
    (NotionAPI.format_page_id s).getD 18 ' ' = '-' ∧
    (NotionAPI.format_page_id s).getD 23 ' ' = '-' ∧
    (NotionAPI.format_page_id s).filter (fun c => c != '-') = s := by
  have la : (s.take 8).length = 8 := by
    rw [List.length_take]; omega
  have lb : ((s.take 12).drop 8).length = 4 := by
    rw [List.length_drop, List.length_take]; omega
  have lc : ((s.take 16).drop 12).length = 4 := by
    rw [List.length_drop, List.length_take]; omega
  have ld : ((s.take 20).drop 16).length = 4 := by
    rw [List.length_drop, List.length_take]; omega
  have le' : (s.drop 20).length = 12 := by
    rw [List.length_drop]; omega
  have hseg : ∀ l : List Char, l ⊆ s → l.filter (fun c => c != '-') = l := by
    intro l hl
    rw [List.filter_eq_self]
    intro c hc
    simp only [bne_iff_ne, ne_eq, decide_eq_true_eq]
    intro he
    exact hnd (he ▸ hl hc)
  rw [format_page_id_eq]
  refine ⟨?_, ?_, ?_, ?_, ?_, ?_⟩
  · simp only [List.length_append, List.length_cons, la, lb, lc, ld, le']
  · exact getD_append_length _ _ _ _ 8 la
  · rw [show s.take 8 ++ '-' :: ((s.take 12).drop 8 ++ '-' :: ((s.take 16).drop 12 ++
        '-' :: ((s.take 20).drop 16 ++ '-' :: s.drop 20))) =
      (s.take 8 ++ '-' :: (s.take 12).drop 8) ++ '-' :: ((s.take 16).drop 12 ++
        '-' :: ((s.take 20).drop 16 ++ '-' :: s.drop 20)) from by simp]
    refine getD_append_length _ _ _ _ 13 ?_
    simp only [List.length_append, List.length_cons, la, lb]
  · rw [show s.take 8 ++ '-' :: ((s.take 12).drop 8 ++ '-' :: ((s.take 16).drop 12 ++
        '-' :: ((s.take 20).drop 16 ++ '-' :: s.drop 20))) =
      (s.take 8 ++ '-' :: ((s.take 12).drop 8 ++ '-' :: (s.take 16).drop 12)) ++
        '-' :: ((s.take 20).drop 16 ++ '-' :: s.drop 20) from by simp]
    refine getD_append_length _ _ _ _ 18 ?_
    simp only [List.length_append, List.length_cons, la, lb, lc]
  · rw [show s.take 8 ++ '-' :: ((s.take 12).drop 8 ++ '-' :: ((s.take 16).drop 12 ++
        '-' :: ((s.take 20).drop 16 ++ '-' :: s.drop 20))) =
      (s.take 8 ++ '-' :: ((s.take 12).drop 8 ++ '-' :: ((s.take 16).drop 12 ++
        '-' :: (s.take 20).drop 16))) ++ '-' :: s.drop 20 from by simp]
    refine getD_append_length _ _ _ _ 23 ?_
    simp only [List.length_append, List.length_cons, la, lb, lc, ld]
  · simp only [List.filter_append, List.filter_cons, bne_self_eq_false,
      Bool.false_eq_true, if_false]
    rw [hseg _ (List.take_subset _ _),
      hseg _ (List.Subset.trans (List.drop_subset _ _) (List.take_subset _ _)),
      hseg _ (List.Subset.trans (List.drop_subset _ _) (List.take_subset _ _)),
      hseg _ (List.Subset.trans (List.drop_subset _ _) (List.take_subset _ _)),
      hseg _ (List.drop_subset _ _)]
    have h1 : s.take 8 ++ (s.take 12).drop 8 = s.take 12 := by
      conv_lhs => rw [show s.take 8 = (s.take 12).take 8 from by
        rw [List.take_take]; norm_num]
      exact List.take_append_drop 8 _
    have h2 : s.take 12 ++ (s.take 16).drop 12 = s.take 16 := by
      conv_lhs => rw [show s.take 12 = (s.take 16).take 12 from by
        rw [List.take_take]; norm_num]
      exact List.take_append_drop 12 _
    have h3 : s.take 16 ++ (s.take 20).drop 16 = s.take 20 := by
      conv_lhs => rw [show s.take 16 = (s.take 20).take 16 from by
        rw [List.take_take]; norm_num]
      exact List.take_append_drop 16 _
    rw [← List.append_assoc, h1, ← List.append_assoc, h2, ← List.append_assoc, h3]
    exact List.take_append_drop 20 s

/-- Witness for C5 at the concrete 32-character dash-free identifier of
all zeros. -/
theorem format_page_id_inserts_dashes_witness :
    (NotionAPI.format_page_id (List.replicate 32 '0')).length = 36 ∧
    (NotionAPI.format_page_id (List.replicate 32 '0')).getD 8 ' ' = '-' ∧
    (NotionAPI.format_page_id (List.replicate 32 '0')).getD 13 ' ' = '-' ∧
    (NotionAPI.format_page_id (List.replicate 32 '0')).getD 18 ' ' = '-' ∧
    (NotionAPI.format_page_id (List.replicate 32 '0')).getD 23 ' ' = '-' ∧
    (NotionAPI.format_page_id (List.replicate 32 '0')).filter (fun c => c != '-') =
      List.replicate 32 '0' :=
  format_page_id_inserts_dashes (List.replicate 32 '0') (by simp) (by decide)

/-- C4: re-canonicalizing does not reproduce a valid identifier — for any
valid 32-character hexadecimal raw identifier, applying `_format_page_id`
to its already-dashed form yields a string that is not a canonical dashed
8-4-4-4-12 identifier, and differs from the once-formatted form. -/
theorem format_page_id_not_idempotent (s : List Char) (hlen : s.length = 32)
    (_hhex : s.all isHexChar = true) :
    isCanonicalId (NotionAPI.format_page_id (NotionAPI.format_page_id s)) = false ∧
    NotionAPI.format_page_id (NotionAPI.format_page_id s) ≠
      NotionAPI.format_page_id s := by
  have l1 : (NotionAPI.format_page_id s).length = 36 := by
    rw [format_page_id_length s (by omega)]
    omega
  have l2 : (NotionAPI.format_page_id (NotionAPI.format_page_id s)).length = 40 := by
    rw [format_page_id_length _ (by rw [l1]; norm_num), l1]
  constructor
  · rw [isCanonicalId, l2]
    simp
  · intro h
    have hl := congrArg List.length h
    rw [l2, l1] at hl
    exact absurd hl (by norm_num)

/-- Witness for C4 at the concrete hexadecimal identifier of 32 `a`s. -/
theorem format_page_id_not_idempotent_witness :
    isCanonicalId (NotionAPI.format_page_id (NotionAPI.format_page_id
      (List.replicate 32 'a'))) = false ∧
    NotionAPI.format_page_id (NotionAPI.format_page_id (List.replicate 32 'a')) ≠
      NotionAPI.format_page_id (List.replicate 32 'a') :=
  format_page_id_not_idempotent (List.replicate 32 'a') (by simp) (by decide)

/-- Specification of the `str.find` helper: if `sub` begins at offset `k`
of `s` and at no earlier offset, the scan starting at counter `i` returns
`i + k`. -/
theorem strFindAux_spec (sub : List Char) : ∀ (k : Nat) (s : List Char) (i : Nat),
    (∀ j < k, sub.isPrefixOf (s.drop j) = false) →
    sub.isPrefixOf (s.drop k) = true →
    strFindAux sub s i = some (i + k) := by
  intro k
  induction k with
  | zero =>
    intro s i h0 hk
    rw [List.drop_zero] at hk
    cases s with
    | nil =>
      rw [strFindAux]
      cases sub with
      | nil => simp
      | cons c cs => simp [List.isPrefixOf] at hk
    | cons c rest =>
      rw [strFindAux]
      simp [hk]
  | succ k ih =>
    intro s i h0 hk
    cases s with
    | nil =>
      have h0' := h0 0 (Nat.succ_pos k)
      simp only [List.drop_nil] at h0' hk
      rw [h0'] at hk
      exact absurd hk (by decide)
    | cons c rest =>
      have hc : sub.isPrefixOf (c :: rest) = false := by
        have := h0 0 (Nat.succ_pos k)
        simpa using this
      rw [strFindAux]
      simp only [hc, Bool.false_eq_true, if_false]
      have h0' : ∀ j < k, sub.isPrefixOf (rest.drop j) = false := by
        intro j hj
        have := h0 (j + 1) (Nat.succ_lt_succ hj)
        simpa [List.drop_succ_cons] using this
      have hk' : sub.isPrefixOf (rest.drop k) = true := by
        simpa [List.drop_succ_cons] using hk
      rw [ih rest (i + 1) h0' hk']
      congr 1
      omega

/-- C6: for every URL of the form `<prefix><32 chars>?v=<suffix>` whose
first `?v=` occurrence is the one right after the 32 embedded characters,
`_extract_dbid_from_http_url` returns exactly the embedded 32 characters. -/
theorem extract_dbid_returns_embedded (pre emb suff : List Char)
    (hemb : emb.length = 32)
    (hfirst : ∀ j < pre.length + 32,
      qvMarker.isPrefixOf ((pre ++ emb ++ qvMarker ++ suff).drop j) = false) :
    NotionAPI.extract_dbid_from_http_url (pre ++ emb ++ qvMarker ++ suff) = emb := by
  have hpre2 : (pre ++ emb).length = pre.length + 32 := by simp [hemb]
  have hdrop : (pre ++ emb ++ qvMarker ++ suff).drop (pre.length + 32) =
      qvMarker ++ suff := by
    rw [List.append_assoc (pre ++ emb) qvMarker suff]
    exact List.drop_left' hpre2
  have hk : qvMarker.isPrefixOf
      ((pre ++ emb ++ qvMarker ++ suff).drop (pre.length + 32)) = true := by
    rw [hdrop]
    exact List.isPrefixOf_iff_prefix.mpr (List.prefix_append _ _)
  have hfind : strFind (pre ++ emb ++ qvMarker ++ suff) qvMarker =
      ((pre.length + 32 : Nat) : Int) := by
    rw [strFind, strFindAux_spec qvMarker (pre.length + 32) _ 0 hfirst hk]
    simp
  rw [NotionAPI.extract_dbid_from_http_url, hfind,
    show ((pre.length + 32 : Nat) : Int) - 32 = ((pre.length : Nat) : Int) by
      push_cast; ring]
  rw [pySlice_eq_take_drop]
  have htake : (pre ++ emb ++ qvMarker ++ suff).take (pre.length + 32) =
      pre ++ emb := by
    rw [List.append_assoc (pre ++ emb) qvMarker suff]
    exact List.take_left' hpre2
  rw [htake]
  exact List.drop_left' rfl

/-- Witness for C6 at a concrete URL with a one-character prefix, 32
embedded characters and a one-character suffix. -/
theorem extract_dbid_returns_embedded_witness :
    NotionAPI.extract_dbid_from_http_url
      (['h'] ++ List.replicate 32 'b' ++ qvMarker ++ ['s']) =
      List.replicate 32 'b' :=
  extract_dbid_returns_embedded ['h'] (List.replicate 32 'b') ['s']
    (by simp) (by decide)

/-- A lookup over an association list none of whose keys is `a` is `none`. -/
theorem lookup_none_of_ne {β : Type} (l : List ((Nat × String) × β))
    (a : Nat × String) (h : ∀ e ∈ l, e.1 ≠ a) : l.lookup a = none := by
  induction l with
  | nil => rfl
  | cons e es ih =>
    rw [List.lookup]
    rw [show (a == e.1) = false from beq_eq_false_iff_ne.mpr
      (fun he => (h e (List.mem_cons_self _ _)) he.symm)]
    exact ih fun x hx => h x (List.mem_cons_of_mem _ hx)

/-- When `get_properties_keys` succeeds it returns the total key view. -/
theorem keysD_of_get_properties_keys (p : NotionPage) (ks : List String)
    (h : p.get_properties_keys = Except.ok ks) : NotionPage.keysD p = ks := by
  cases hp : p.properties
  case obj fs =>
    rw [NotionPage.get_properties_keys, hp] at h
    injection h with h1
    rw [NotionPage.keysD, hp]
    exact h1
  all_goals
    rw [NotionPage.get_properties_keys, hp] at h
    exact Except.noConfusion h

/-- Column evolution of the inner assignment loop: the keys of the row
being written are appended to the columns when not yet present. -/
theorem fillRow_columns (x : Nat) (page : NotionPage) :
    ∀ (ks : List String) (df df' : DataFrame),
    fillRow x page ks df = Except.ok df' →
    df'.columns = colUnion df.columns ks := by
  intro ks
  induction ks with
  | nil =>
    intro df df' h
    cases h
    rfl
  | cons k ks ih =>
    intro df df' h
    rw [fillRow] at h
    cases hp : page.get_property_value k with
    | error e => rw [hp] at h; exact Except.noConfusion h
    | ok v =>
      rw [hp] at h
      rw [ih (dfSet df x k v) df' h]
      simp only [colUnion, List.foldl_cons]
      rfl

/-- Column evolution of the outer loop over the pages. -/
theorem fillRows_columns : ∀ (ps : List NotionPage) (x : Nat) (df df' : DataFrame),
    fillRows x ps df = Except.ok df' →
    df'.columns = ps.foldl (fun acc p => colUnion acc (NotionPage.keysD p))
      df.columns := by
  intro ps
  induction ps with
  | nil =>
    intro x df df' h
    cases h
    rfl
  | cons p ps ih =>
    intro x df df' h
    rw [fillRows] at h
    split at h
    · exact Except.noConfusion h
    next ks hk =>
      split at h
      · exact Except.noConfusion h
      next df1 hf =>
        rw [ih (x + 1) df1 df' h, fillRow_columns x p ks df df1 hf,
          List.foldl_cons, keysD_of_get_properties_keys p ks hk]

/-- The inner loop leaves the row labels unchanged when the row already
exists. -/
theorem fillRow_rowIndex_mem (x : Nat) (page : NotionPage) :
    ∀ (ks : List String) (df df' : DataFrame),
    fillRow x page ks df = Except.ok df' → x ∈ df.rowIndex →
    df'.rowIndex = df.rowIndex := by
  intro ks
  induction ks with
  | nil =>
    intro df df' h hx
    cases h
    rfl
  | cons k ks ih =>
    intro df df' h hx
    rw [fillRow] at h
    split at h
    · exact Except.noConfusion h
    next v hv =>
      have hset : (dfSet df x k v).rowIndex = df.rowIndex := by
        simp [dfSet, hx]
      rw [ih (dfSet df x k v) df' h (by rw [hset]; exact hx), hset]

/-- The inner loop creates the row label on its first assignment: a page
with no properties creates no row at all. -/
theorem fillRow_rowIndex_new (x : Nat) (page : NotionPage)
    (ks : List String) (df df' : DataFrame)
    (h : fillRow x page ks df = Except.ok df') (hx : x ∉ df.rowIndex) :
    df'.rowIndex = df.rowIndex ++ (if ks.isEmpty then [] else [x]) := by
  cases ks with
  | nil =>
    cases h
    simp
  | cons k ks =>
    rw [fillRow] at h
    split at h
    · exact Except.noConfusion h
    next v hv =>
      have hset : (dfSet df x k v).rowIndex = df.rowIndex ++ [x] := by
        simp [dfSet, hx]
      have hmem : x ∈ (dfSet df x k v).rowIndex := by
        rw [hset]
        exact List.mem_append_right _ (List.mem_singleton.mpr rfl)
      rw [fillRow_rowIndex_mem x page ks _ df' h hmem, hset]
      simp

/-- Row labels produced by the outer loop: one per page with at least
one property, in input order. -/
theorem fillRows_rowIndex : ∀ (ps : List NotionPage) (x : Nat) (df df' : DataFrame),
    fillRows x ps df = Except.ok df' →
    (∀ i ∈ df.rowIndex, i < x) →
    df'.rowIndex = df.rowIndex ++ rowsOf x ps := by
  intro ps
  induction ps with
  | nil =>
    intro x df df' h hlt
    cases h
    simp [rowsOf]
  | cons p ps ih =>
    intro x df df' h hlt
    rw [fillRows] at h
    split at h
    · exact Except.noConfusion h
    next ks hk =>
      split at h
      · exact Except.noConfusion h
      next df1 hf =>
        have hx : x ∉ df.rowIndex := fun hm => absurd (hlt x hm) (lt_irrefl x)
        have h1 : df1.rowIndex = df.rowIndex ++ (if ks.isEmpty then [] else [x]) :=
          fillRow_rowIndex_new x p ks df df1 hf hx
        have hlt1 : ∀ i ∈ df1.rowIndex, i < x + 1 := by
          intro i hi
          rw [h1] at hi
          rcases List.mem_append.mp hi with hm | hm
          · exact Nat.lt_succ_of_lt (hlt i hm)
          · cases hke : ks.isEmpty with
            | true => rw [hke] at hm; simp at hm
            | false =>
              rw [hke] at hm
              simp at hm
              omega
        rw [ih (x + 1) df1 df' h hlt1, h1, rowsOf,
          keysD_of_get_properties_keys p ks hk, List.append_assoc]

/-- Cells written by the inner loop: either pre-existing or at row `x`
with a key of the page being written. -/
theorem fillRow_cells (x : Nat) (page : NotionPage) :
    ∀ (ks : List String) (df df' : DataFrame),
    fillRow x page ks df = Except.ok df' →
    ∀ e ∈ df'.cells, e ∈ df.cells ∨ (e.1.1 = x ∧ e.1.2 ∈ ks) := by
  intro ks
  induction ks with
  | nil =>
    intro df df' h e he
    cases h
    exact Or.inl he
  | cons k ks ih =>
    intro df df' h e he
    rw [fillRow] at h
    split at h
    · exact Except.noConfusion h
    next v hv =>
      rcases ih (dfSet df x k v) df' h e he with hm | ⟨h1, h2⟩
      · rw [show (dfSet df x k v).cells = ((x, k), v) :: df.cells from rfl] at hm
        rcases List.mem_cons.mp hm with he1 | he2
        · exact Or.inr ⟨by rw [he1], by rw [he1]; exact List.mem_cons_self _ _⟩
        · exact Or.inl he2
      · exact Or.inr ⟨h1, List.mem_cons_of_mem _ h2⟩

/-- Cells written by the outer loop: either pre-existing or at the row of
some processed page, under one of that page's own property keys. -/
theorem fillRows_cells : ∀ (ps : List NotionPage) (x : Nat) (df df' : DataFrame),
    fillRows x ps df = Except.ok df' →
    ∀ e ∈ df'.cells, e ∈ df.cells ∨
      (x ≤ e.1.1 ∧ ∃ hj : e.1.1 - x < ps.length,
        e.1.2 ∈ NotionPage.keysD (ps.get ⟨e.1.1 - x, hj⟩)) := by
  intro ps
  induction ps with
  | nil =>
    intro x df df' h e he
    cases h
    exact Or.inl he
  | cons p ps ih =>
    intro x df df' h e he
    rw [fillRows] at h
    split at h
    · exact Except.noConfusion h
    next ks hk =>
      split at h
      · exact Except.noConfusion h
      next df1 hf =>
        rcases ih (x + 1) df1 df' h e he with hm | ⟨hle, hj, hmem⟩
        · rcases fillRow_cells x p ks df df1 hf e hm with hm2 | ⟨h1, h2⟩
          · exact Or.inl hm2
          · have h0 : e.1.1 - x = 0 := by omega
            refine Or.inr ⟨le_of_eq h1.symm, ?_⟩
            rw [h0]
            refine ⟨by simp, ?_⟩
            show e.1.2 ∈ NotionPage.keysD p
            rw [keysD_of_get_properties_keys p ks hk]
            exact h2
        · refine Or.inr ⟨by omega, ?_⟩
          have hx1 : e.1.1 - x = (e.1.1 - (x + 1)) + 1 := by omega
          rw [hx1]
          refine ⟨by simp only [List.length_cons]; omega, ?_⟩
          exact hmem

/-- C2 counterexample: with record A carrying only `Name` and record B
carrying `Name` and `Status`, the resulting table's column set is
`["Name", "Status"]` — record B's extra key is appended — and not the
property names of the first record. -/
theorem pages_to_dataframe_columns_counterexample :
    NotionAPI.pages_to_dataframe [cexPageA, cexPageB] = Except.ok cexDF ∧
    cexDF.columns ≠ NotionPage.keysD cexPageA :=
  ⟨rfl, by decide⟩

/-- C2 (amended): for a non-empty record list on which assembly succeeds,
the table's columns are the first record's property names extended with
each later record's unseen property names in encounter order; each record
with at least one property yields a row, rows appearing in input order;
and a record lacking one of the columns has an absent cell in its row
rather than causing an error. -/
theorem pages_to_dataframe_spec (p0 : NotionPage) (rest : List NotionPage)
    (df : DataFrame)
    (h : NotionAPI.pages_to_dataframe (p0 :: rest) = Except.ok df) :
    df.columns = (p0 :: rest).foldl
      (fun acc p => colUnion acc (NotionPage.keysD p)) (NotionPage.keysD p0) ∧
    df.rowIndex = rowsOf 0 (p0 :: rest) ∧
    ∀ (i : Nat) (hi : i < (p0 :: rest).length) (k : String),
      k ∉ NotionPage.keysD ((p0 :: rest).get ⟨i, hi⟩) → dfGet df i k = none := by
  have hun : NotionAPI.pages_to_dataframe (p0 :: rest) =
      (match p0.get_properties_keys with
       | Except.error e => Except.error e
       | Except.ok cols => fillRows 0 (p0 :: rest) ⟨cols, [], []⟩) := rfl
  rw [hun] at h
  split at h
  · exact Except.noConfusion h
  next cols hcols =>
    have hkd : NotionPage.keysD p0 = cols :=
      keysD_of_get_properties_keys p0 cols hcols
    refine ⟨?_, ?_, ?_⟩
    · rw [fillRows_columns (p0 :: rest) 0 _ df h, hkd]
    · rw [fillRows_rowIndex (p0 :: rest) 0 _ df h
        (fun i hi => absurd hi (List.not_mem_nil i))]
      exact List.nil_append _
    · intro i hi k hk2
      rw [dfGet]
      apply lookup_none_of_ne
      rintro ⟨⟨r, key⟩, v⟩ he heq
      rw [Prod.mk.injEq] at heq
      obtain ⟨rfl, rfl⟩ := heq
      rcases fillRows_cells (p0 :: rest) 0 _ df h _ he with hm | ⟨hle, hj, hmem⟩
      · exact absurd hm (List.not_mem_nil _)
      · exact hk2 hmem

/-- Witness for the amended C2 at the concrete two-record scenario:
columns as the ordered union, rows 0 and 1 in input order, and record
A's missing `Status` cell absent. -/
theorem pages_to_dataframe_spec_witness :
    cexDF.columns = [cexPageA, cexPageB].foldl
      (fun acc p => colUnion acc (NotionPage.keysD p)) (NotionPage.keysD cexPageA) ∧
    cexDF.rowIndex = rowsOf 0 [cexPageA, cexPageB] ∧
    dfGet cexDF 0 "Status" = none := by
  have h := pages_to_dataframe_spec cexPageA [cexPageB] cexDF rfl
  exact ⟨h.1, h.2.1, h.2.2 0 (by norm_num) "Status" (by decide)⟩
